import Mathlib

/-!
Shallow embedding of the vk-renderer repository: the scoped teardown registry
(util::TaskStack), the renderer frame loop (vk::Renderer::Draw, GetFrame,
Shutdown, Init), the one-shot queue submitter (vk::QueueSubmitter), the
texture upload path (vk::Texture), and the uniform-buffer size alignment
helper (vk::Renderer::GetAlignedBufferSize). Vulkan calls are modelled by
their observable effects: each embedded operation consumes an environment
holding the results the driver would return and produces the trace of calls
the C++ code performs together with the resulting state.
-/

namespace VkRenderer

/-- VkResult, modelled as an integer. VK_SUCCESS is 0; positive codes such as
VK_NOT_READY (1) and VK_TIMEOUT (2) are non-error statuses; errors are
negative. The C++ code only ever compares against VK_SUCCESS, or uses the
raw value as a truth value. -/
abbrev VkResult := Int

def VK_SUCCESS : VkResult := 0

def VK_NOT_READY : VkResult := 1

def VK_TIMEOUT : VkResult := 2

/-- Cleanup actions registered with the teardown registry, identified
abstractly by a label. -/
abbrev Action := Nat

/-- util::TaskStack (src/task_stack.hpp): a registry of cleanup actions,
stored in registration order in the vector tasks_. -/
structure TaskStack where
  tasks : List Action
deriving DecidableEq

def TaskStack.empty : TaskStack := ⟨[]⟩

/-- util::TaskStack::Push (src/task_stack.cpp lines 5-7): appends the action
at the back of tasks_. -/
def TaskStack.push (s : TaskStack) (a : Action) : TaskStack :=
  ⟨s.tasks ++ [a]⟩

/-- Pushes a whole list of actions in order, front first. -/
def TaskStack.pushAll (s : TaskStack) (l : List Action) : TaskStack :=
  l.foldl TaskStack.push s

/-- util::TaskStack::Flush (src/task_stack.cpp lines 9-13): iterates tasks_
from rbegin to rend invoking each action. The vector tasks_ is NOT modified:
this variant has no clear call. Returns the invocation trace paired with the
post-state. -/
def TaskStack.flush (s : TaskStack) : List Action × TaskStack :=
  (s.tasks.reverse, s)

/-- util::TaskStack::Flush of the later repository variant
(src/unnamed/part_013 lines 11-16): the same reverse-order loop followed by
tasks_.clear(). -/
def TaskStack.flushLater (s : TaskStack) : List Action × TaskStack :=
  (s.tasks.reverse, ⟨[]⟩)

/-- vk::Renderer::kFrameOverlap (src/renderer.hpp line 92): the number of
frame slots, 2. -/
def kFrameOverlap : Nat := 2

/-- vk::Renderer::GetFrame (src/unnamed/part_007 lines 1468-1470): the index
of the frame slot used for the current frame number,
framenumber_ % kFrameOverlap. -/
def Renderer.getFrame (framenumber : Nat) : Nat :=
  framenumber % kFrameOverlap

/-- kTimeoutNanoSecs (src/unnamed/part_007 line 29): the bounded timeout, in
nanoseconds, used by the fence waits of Draw and Shutdown. -/
def kTimeoutNanoSecs : Nat := 1000000000

/-- Driver results for the eight fallible steps of vk::Renderer::Draw, in the
order the code performs them. -/
structure DrawEnv where
  waitFence : VkResult
  resetFence : VkResult
  acquire : VkResult
  resetCmd : VkResult
  beginCmd : VkResult
  endCmd : VkResult
  submit : VkResult
  present : VkResult
deriving DecidableEq

/-- The calls vk::Renderer::Draw performs, in program order. -/
inductive DrawEvent where
  | getFrame (slot : Nat)
  | waitFences (r : VkResult)
  | resetFences (r : VkResult)
  | acquireNextImage (r : VkResult)
  | resetCommandBuffer (r : VkResult)
  | beginCommandBuffer (r : VkResult)
  | beginRenderPass
  | drawObjects
  | endRenderPass
  | endCommandBuffer (r : VkResult)
  | queueSubmit (r : VkResult)
  | queuePresent (r : VkResult)
deriving DecidableEq

/-- vk::Renderer::Draw (src/unnamed/part_007 lines 712-821). Each step that
can fail is checked against VK_SUCCESS and makes the function return at once
on failure; framenumber_ is incremented only after a successful present.
The result is the trace of calls performed and the new frame number. -/
def Renderer.draw (env : DrawEnv) (framenumber : Nat) : List DrawEvent × Nat :=
  let slot := Renderer.getFrame framenumber
  if env.waitFence ≠ VK_SUCCESS then
    ([DrawEvent.getFrame slot, DrawEvent.waitFences env.waitFence], framenumber)
  else if env.resetFence ≠ VK_SUCCESS then
    ([DrawEvent.getFrame slot, DrawEvent.waitFences env.waitFence,
      DrawEvent.resetFences env.resetFence], framenumber)
  else if env.acquire ≠ VK_SUCCESS then
    ([DrawEvent.getFrame slot, DrawEvent.waitFences env.waitFence,
      DrawEvent.resetFences env.resetFence, DrawEvent.acquireNextImage env.acquire],
     framenumber)
  else if env.resetCmd ≠ VK_SUCCESS then
    ([DrawEvent.getFrame slot, DrawEvent.waitFences env.waitFence,
      DrawEvent.resetFences env.resetFence, DrawEvent.acquireNextImage env.acquire,
      DrawEvent.resetCommandBuffer env.resetCmd], framenumber)
  else if env.beginCmd ≠ VK_SUCCESS then
    ([DrawEvent.getFrame slot, DrawEvent.waitFences env.waitFence,
      DrawEvent.resetFences env.resetFence, DrawEvent.acquireNextImage env.acquire,
      DrawEvent.resetCommandBuffer env.resetCmd, DrawEvent.beginCommandBuffer env.beginCmd],
     framenumber)
  else if env.endCmd ≠ VK_SUCCESS then
    ([DrawEvent.getFrame slot, DrawEvent.waitFences env.waitFence,
      DrawEvent.resetFences env.resetFence, DrawEvent.acquireNextImage env.acquire,
      DrawEvent.resetCommandBuffer env.resetCmd, DrawEvent.beginCommandBuffer env.beginCmd,
      DrawEvent.beginRenderPass, DrawEvent.drawObjects, DrawEvent.endRenderPass,
      DrawEvent.endCommandBuffer env.endCmd], framenumber)
  else if env.submit ≠ VK_SUCCESS then
    ([DrawEvent.getFrame slot, DrawEvent.waitFences env.waitFence,
      DrawEvent.resetFences env.resetFence, DrawEvent.acquireNextImage env.acquire,
      DrawEvent.resetCommandBuffer env.resetCmd, DrawEvent.beginCommandBuffer env.beginCmd,
      DrawEvent.beginRenderPass, DrawEvent.drawObjects, DrawEvent.endRenderPass,
      DrawEvent.endCommandBuffer env.endCmd, DrawEvent.queueSubmit env.submit], framenumber)
  else if env.present ≠ VK_SUCCESS then
    ([DrawEvent.getFrame slot, DrawEvent.waitFences env.waitFence,
      DrawEvent.resetFences env.resetFence, DrawEvent.acquireNextImage env.acquire,
      DrawEvent.resetCommandBuffer env.resetCmd, DrawEvent.beginCommandBuffer env.beginCmd,
      DrawEvent.beginRenderPass, DrawEvent.drawObjects, DrawEvent.endRenderPass,
      DrawEvent.endCommandBuffer env.endCmd, DrawEvent.queueSubmit env.submit,
      DrawEvent.queuePresent env.present], framenumber)
  else
    ([DrawEvent.getFrame slot, DrawEvent.waitFences env.waitFence,
      DrawEvent.resetFences env.resetFence, DrawEvent.acquireNextImage env.acquire,
      DrawEvent.resetCommandBuffer env.resetCmd, DrawEvent.beginCommandBuffer env.beginCmd,
      DrawEvent.beginRenderPass, DrawEvent.drawObjects, DrawEvent.endRenderPass,
      DrawEvent.endCommandBuffer env.endCmd, DrawEvent.queueSubmit env.submit,
      DrawEvent.queuePresent env.present], framenumber + 1)

/-- All eight fallible Draw steps report VK_SUCCESS. -/
def DrawEnv.allSuccess (env : DrawEnv) : Prop :=
  env.waitFence = VK_SUCCESS ∧ env.resetFence = VK_SUCCESS ∧
  env.acquire = VK_SUCCESS ∧ env.resetCmd = VK_SUCCESS ∧
  env.beginCmd = VK_SUCCESS ∧ env.endCmd = VK_SUCCESS ∧
  env.submit = VK_SUCCESS ∧ env.present = VK_SUCCESS

instance instDecDrawEnvAllSuccess (env : DrawEnv) : Decidable env.allSuccess := by
  unfold DrawEnv.allSuccess
  infer_instance

/-- The frame counter after N calls to Draw, each running against the same
driver environment, starting from frame 0. -/
def Renderer.drawIter (env : DrawEnv) : Nat → Nat
  | 0 => 0
  | n + 1 => (Renderer.draw env (Renderer.drawIter env n)).2

/-- Driver results for per-slot teardown in vk::Renderer::Shutdown: the
vkGetFenceStatus result and the vkWaitForFences result for each of the two
frame slots. -/
structure ShutdownEnv where
  fenceStatus0 : VkResult
  waitResult0 : VkResult
  fenceStatus1 : VkResult
  waitResult1 : VkResult
deriving DecidableEq

/-- The calls vk::Renderer::Shutdown performs. -/
inductive ShutdownEvent where
  | getFenceStatus (slot : Nat) (r : VkResult)
  | waitFences (slot : Nat) (r : VkResult)
  | runTask (a : Action)
deriving DecidableEq

/-- The per-slot calls of the Shutdown loop body: vkGetFenceStatus is always
called; vkWaitForFences is called only when the status is nonzero, because
the C++ condition short-circuits on vkGetFenceStatus(...) being truthy
(nonzero, i.e. not VK_SUCCESS). -/
def Renderer.shutdownSlotEvents (slot : Nat) (status wait : VkResult) : List ShutdownEvent :=
  if status ≠ VK_SUCCESS then
    [ShutdownEvent.getFenceStatus slot status, ShutdownEvent.waitFences slot wait]
  else
    [ShutdownEvent.getFenceStatus slot status]

/-- vk::Renderer::Shutdown (src/unnamed/part_007 lines 701-710): for each of
the kFrameOverlap = 2 slots, if the render fence status is nonzero (not
observed signaled) and the bounded wait on it does not return VK_SUCCESS,
Shutdown returns at once; otherwise it flushes the deletion stack. Result:
the call trace, the deletion stack afterwards, and whether the flush ran. -/
def Renderer.shutdown (env : ShutdownEnv) (stack : TaskStack) :
    List ShutdownEvent × TaskStack × Bool :=
  if env.fenceStatus0 ≠ VK_SUCCESS ∧ env.waitResult0 ≠ VK_SUCCESS then
    (Renderer.shutdownSlotEvents 0 env.fenceStatus0 env.waitResult0, stack, false)
  else if env.fenceStatus1 ≠ VK_SUCCESS ∧ env.waitResult1 ≠ VK_SUCCESS then
    (Renderer.shutdownSlotEvents 0 env.fenceStatus0 env.waitResult0 ++
       Renderer.shutdownSlotEvents 1 env.fenceStatus1 env.waitResult1, stack, false)
  else
    (Renderer.shutdownSlotEvents 0 env.fenceStatus0 env.waitResult0 ++
       Renderer.shutdownSlotEvents 1 env.fenceStatus1 env.waitResult1 ++
       (stack.flushLater).1.map ShutdownEvent.runTask,
     (stack.flushLater).2, true)

/-- Driver results for the fallible calls of
vk::QueueSubmitter::SubmitImmediate. -/
structure SubmitEnv where
  beginResult : VkResult
  endResult : VkResult
  submitResult : VkResult
  waitResult : VkResult
deriving DecidableEq

/-- The calls vk::QueueSubmitter::SubmitImmediate performs. -/
inductive SubmitEvent where
  | beginCommandBuffer (r : VkResult)
  | recordCommands
  | endCommandBuffer (r : VkResult)
  | queueSubmit (r : VkResult)
  | waitFences (timeoutNanos : Nat) (r : VkResult)
  | resetFences
  | resetCommandPool
deriving DecidableEq

/-- Whether SubmitImmediate returned normally or called abort(). -/
inductive SubmitOutcome where
  | ok
  | aborted
deriving DecidableEq

/-- The literal fence-wait timeout of SubmitImmediate
(src/unnamed/part_005 line 34). -/
def kSubmitImmediateTimeoutNanos : Nat := 9999999999

/-- vk::QueueSubmitter::SubmitImmediate (src/unnamed/part_005 lines 9-38):
begin the upload command buffer, run the recording callback, end the buffer,
submit it with the upload fence; a failure of begin, end or submit calls
abort(). Then vkWaitForFences is called with the finite timeout
9999999999 ns and its result is IGNORED, after which the fence and the
upload command pool are reset unconditionally and the function returns. -/
def QueueSubmitter.submitImmediate (env : SubmitEnv) : List SubmitEvent × SubmitOutcome :=
  if env.beginResult ≠ VK_SUCCESS then
    ([SubmitEvent.beginCommandBuffer env.beginResult], SubmitOutcome.aborted)
  else if env.endResult ≠ VK_SUCCESS then
    ([SubmitEvent.beginCommandBuffer env.beginResult, SubmitEvent.recordCommands,
      SubmitEvent.endCommandBuffer env.endResult], SubmitOutcome.aborted)
  else if env.submitResult ≠ VK_SUCCESS then
    ([SubmitEvent.beginCommandBuffer env.beginResult, SubmitEvent.recordCommands,
      SubmitEvent.endCommandBuffer env.endResult, SubmitEvent.queueSubmit env.submitResult],
     SubmitOutcome.aborted)
  else
    ([SubmitEvent.beginCommandBuffer env.beginResult, SubmitEvent.recordCommands,
      SubmitEvent.endCommandBuffer env.endResult, SubmitEvent.queueSubmit env.submitResult,
      SubmitEvent.waitFences kSubmitImmediateTimeoutNanos env.waitResult,
      SubmitEvent.resetFences, SubmitEvent.resetCommandPool], SubmitOutcome.ok)

/-- Image layouts appearing in the texture upload barriers. -/
inductive ImageLayout where
  | undefined
  | transferDstOptimal
  | shaderReadOnlyOptimal
deriving DecidableEq

def VK_ACCESS_TRANSFER_WRITE_BIT : Nat := 0x1000

def VK_ACCESS_SHADER_READ_BIT : Nat := 0x20

def VK_PIPELINE_STAGE_TOP_OF_PIPE_BIT : Nat := 0x1

def VK_PIPELINE_STAGE_TRANSFER_BIT : Nat := 0x1000

def VK_PIPELINE_STAGE_FRAGMENT_SHADER_BIT : Nat := 0x80

/-- The calls of the texture upload constructor, including the commands the
callback records into the one-shot command buffer. -/
inductive TexEvent where
  | createStagingBuffer (size : Nat)
  | mapMemory
  | memcpy (size : Nat)
  | unmapMemory
  | createImage (w h d : Nat)
  | beginCommandBuffer (r : VkResult)
  | pipelineBarrier (srcStage dstStage : Nat) (oldLayout newLayout : ImageLayout)
      (srcAccess dstAccess : Nat)
  | copyBufferToImage (w h d : Nat)
  | endCommandBuffer (r : VkResult)
  | queueSubmit (r : VkResult)
  | waitFences (timeoutNanos : Nat) (r : VkResult)
  | resetFences
  | resetCommandPool
  | destroyStagingBuffer
  | createImageView
deriving DecidableEq

/-- vk::Texture::Texture (src/unnamed/part_005 lines 88-180): creates and
fills a staging buffer, creates the GPU image, then runs SubmitImmediate
with a callback recording the undefined to transfer-destination barrier, the
whole-extent buffer-to-image copy, and the transfer-destination to
shader-read-only barrier; after the blocking submission returns it destroys
the staging buffer and creates the image view. The SubmitImmediate body is
inlined with its environment: abort on begin, end or submit failure ends the
process before the staging buffer is destroyed. -/
def Texture.create (env : SubmitEnv) (bufferSize w h : Nat) :
    List TexEvent × SubmitOutcome :=
  let pre : List TexEvent :=
    [TexEvent.createStagingBuffer bufferSize, TexEvent.mapMemory,
     TexEvent.memcpy bufferSize, TexEvent.unmapMemory, TexEvent.createImage w h 1]
  let recorded : List TexEvent :=
    [TexEvent.pipelineBarrier VK_PIPELINE_STAGE_TOP_OF_PIPE_BIT
       VK_PIPELINE_STAGE_TRANSFER_BIT ImageLayout.undefined
       ImageLayout.transferDstOptimal 0 VK_ACCESS_TRANSFER_WRITE_BIT,
     TexEvent.copyBufferToImage w h 1,
     TexEvent.pipelineBarrier VK_PIPELINE_STAGE_TRANSFER_BIT
       VK_PIPELINE_STAGE_FRAGMENT_SHADER_BIT ImageLayout.transferDstOptimal
       ImageLayout.shaderReadOnlyOptimal VK_ACCESS_TRANSFER_WRITE_BIT
       VK_ACCESS_SHADER_READ_BIT]
  if env.beginResult ≠ VK_SUCCESS then
    (pre ++ [TexEvent.beginCommandBuffer env.beginResult], SubmitOutcome.aborted)
  else if env.endResult ≠ VK_SUCCESS then
    (pre ++ [TexEvent.beginCommandBuffer env.beginResult] ++ recorded ++
       [TexEvent.endCommandBuffer env.endResult], SubmitOutcome.aborted)
  else if env.submitResult ≠ VK_SUCCESS then
    (pre ++ [TexEvent.beginCommandBuffer env.beginResult] ++ recorded ++
       [TexEvent.endCommandBuffer env.endResult, TexEvent.queueSubmit env.submitResult],
     SubmitOutcome.aborted)
  else
    (pre ++ [TexEvent.beginCommandBuffer env.beginResult] ++ recorded ++
       [TexEvent.endCommandBuffer env.endResult, TexEvent.queueSubmit env.submitResult,
        TexEvent.waitFences kSubmitImmediateTimeoutNanos env.waitResult,
        TexEvent.resetFences, TexEvent.resetCommandPool,
        TexEvent.destroyStagingBuffer, TexEvent.createImageView], SubmitOutcome.ok)

def VK_NULL_HANDLE : Nat := 0

/-- The five GPU handles a vk::Texture owns (src/buffer.cpp lines 86-89):
device_, allocator_, image_.image, image_.allocation, image_view_. A zero
value models VK_NULL_HANDLE / nullptr. -/
structure TextureHandles where
  device : Nat
  allocator : Nat
  image : Nat
  allocation : Nat
  imageView : Nat
deriving DecidableEq

/-- vk::Texture::Texture(Texture&&) (src/buffer.cpp lines 58-68): the
destination takes every handle of the source and every handle of the source
is nulled. Result: (destination, moved-from source). -/
def Texture.moveConstruct (other : TextureHandles) : TextureHandles × TextureHandles :=
  (⟨other.device, other.allocator, other.image, other.allocation, other.imageView⟩,
   ⟨VK_NULL_HANDLE, VK_NULL_HANDLE, VK_NULL_HANDLE, VK_NULL_HANDLE, VK_NULL_HANDLE⟩)

/-- Destruction calls a dying Texture makes. -/
inductive DestroyEvent where
  | destroyImageView (device view : Nat)
  | destroyImage (allocator image allocation : Nat)
deriving DecidableEq

/-- vk::Texture::~Texture (src/unnamed/part_005 lines 182-187): if allocator_
is non-null, destroy the image view and the image; otherwise do nothing. -/
def Texture.destructor (t : TextureHandles) : List DestroyEvent :=
  if t.allocator ≠ VK_NULL_HANDLE then
    [DestroyEvent.destroyImageView t.device t.imageView,
     DestroyEvent.destroyImage t.allocator t.image t.allocation]
  else
    []

/-- vk::Renderer::GetAlignedBufferSize (src/unnamed/part_007 lines
1472-1484), with size_t arithmetic made explicit as arithmetic modulo 2 ^ 64:
if the device minimum alignment is positive, the requested size is rounded
with (size + alignment - 1) & ~(alignment - 1); the 64-bit complement
~(alignment - 1) is (2 ^ 64 - 1) - (alignment - 1). -/
def GetAlignedBufferSize (min_alignment original_size : Nat) : Nat :=
  let aligned_size := original_size
  if 0 < min_alignment then
    ((aligned_size + min_alignment - 1) % 2 ^ 64) &&&
      ((2 ^ 64 - 1) - (min_alignment - 1))
  else
    aligned_size

/-- Driver and helper results for the fallible steps of vk::Renderer::Init
(src/unnamed/part_007 lines 266-699), in the order the code checks them.
The two per-frame loops over kFrameOverlap = 2 slots are unrolled; the
swapchain image view and framebuffer loops carry one result per element. -/
structure InitEnv where
  enableValidationLayers : Bool
  validationLayersSupported : Bool
  createInstance : VkResult
  createSurface : VkResult
  deviceCount : Nat
  deviceSelected : Bool
  createDevice : VkResult
  createSwapchain : VkResult
  createDepthImageView : VkResult
  createSwapchainImageViews : List VkResult
  createCommandPool0 : VkResult
  allocateCommandBuffers0 : VkResult
  createCommandPool1 : VkResult
  allocateCommandBuffers1 : VkResult
  createUploadCommandPool : VkResult
  allocateUploadCommandBuffer : VkResult
  createRenderPass : VkResult
  createFramebuffers : List VkResult
  createFence0 : VkResult
  createRenderSemaphore0 : VkResult
  createPresentSemaphore0 : VkResult
  createFence1 : VkResult
  createRenderSemaphore1 : VkResult
  createPresentSemaphore1 : VkResult
  createUploadFence : VkResult
  initPipeline : Bool
  loadMeshes : Bool
deriving DecidableEq

/-- vk::Renderer::Init (src/unnamed/part_007 lines 266-699). Every failing
check returns false. The success path sets initialized_ = true and then
reaches the closing brace of the bool function WITHOUT a return statement,
so no value is returned: that outcome is modelled as none, while an executed
return false is some false. A returned true (some true) never occurs. -/
def Renderer.init (env : InitEnv) : Option Bool :=
  if env.enableValidationLayers && !env.validationLayersSupported then some false
  else if env.createInstance ≠ VK_SUCCESS then some false
  else if env.createSurface ≠ VK_SUCCESS then some false
  else if env.deviceCount = 0 then some false
  else if !env.deviceSelected then some false
  else if env.createDevice ≠ VK_SUCCESS then some false
  else if env.createSwapchain ≠ VK_SUCCESS then some false
  else if env.createDepthImageView ≠ VK_SUCCESS then some false
  else if env.createSwapchainImageViews.any (fun r => decide (r ≠ VK_SUCCESS)) then some false
  else if env.createCommandPool0 ≠ VK_SUCCESS then some false
  else if env.allocateCommandBuffers0 ≠ VK_SUCCESS then some false
  else if env.createCommandPool1 ≠ VK_SUCCESS then some false
  else if env.allocateCommandBuffers1 ≠ VK_SUCCESS then some false
  else if env.createUploadCommandPool ≠ VK_SUCCESS then some false
  else if env.allocateUploadCommandBuffer ≠ VK_SUCCESS then some false
  else if env.createRenderPass ≠ VK_SUCCESS then some false
  else if env.createFramebuffers.any (fun r => decide (r ≠ VK_SUCCESS)) then some false
  else if env.createFence0 ≠ VK_SUCCESS then some false
  else if env.createRenderSemaphore0 ≠ VK_SUCCESS then some false
  else if env.createPresentSemaphore0 ≠ VK_SUCCESS then some false
  else if env.createFence1 ≠ VK_SUCCESS then some false
  else if env.createRenderSemaphore1 ≠ VK_SUCCESS then some false
  else if env.createPresentSemaphore1 ≠ VK_SUCCESS then some false
  else if env.createUploadFence ≠ VK_SUCCESS then some false
  else if !env.initPipeline then some false
  else if !env.loadMeshes then some false
  else none

/-- Every step of Init succeeds: no guard of the failure returns fires. -/
def InitEnv.allOk (env : InitEnv) : Prop :=
  (env.enableValidationLayers && !env.validationLayersSupported) = false ∧
  env.createInstance = VK_SUCCESS ∧
  env.createSurface = VK_SUCCESS ∧
  env.deviceCount ≠ 0 ∧
  env.deviceSelected = true ∧
  env.createDevice = VK_SUCCESS ∧
  env.createSwapchain = VK_SUCCESS ∧
  env.createDepthImageView = VK_SUCCESS ∧
  env.createSwapchainImageViews.any (fun r => decide (r ≠ VK_SUCCESS)) = false ∧
  env.createCommandPool0 = VK_SUCCESS ∧
  env.allocateCommandBuffers0 = VK_SUCCESS ∧
  env.createCommandPool1 = VK_SUCCESS ∧
  env.allocateCommandBuffers1 = VK_SUCCESS ∧
  env.createUploadCommandPool = VK_SUCCESS ∧
  env.allocateUploadCommandBuffer = VK_SUCCESS ∧
  env.createRenderPass = VK_SUCCESS ∧
  env.createFramebuffers.any (fun r => decide (r ≠ VK_SUCCESS)) = false ∧
  env.createFence0 = VK_SUCCESS ∧
  env.createRenderSemaphore0 = VK_SUCCESS ∧
  env.createPresentSemaphore0 = VK_SUCCESS ∧
  env.createFence1 = VK_SUCCESS ∧
  env.createRenderSemaphore1 = VK_SUCCESS ∧
  env.createPresentSemaphore1 = VK_SUCCESS ∧
  env.createUploadFence = VK_SUCCESS ∧
  env.initPipeline = true ∧
  env.loadMeshes = true

instance instDecInitEnvAllOk (env : InitEnv) : Decidable env.allOk := by
  unfold InitEnv.allOk
  infer_instance

/-- A concrete all-success Init environment. -/
def InitEnv.allZero : InitEnv :=
  ⟨false, true, 0, 0, 1, true, 0, 0, 0, [0, 0, 0], 0, 0, 0, 0, 0, 0, 0,
   [0, 0, 0], 0, 0, 0, 0, 0, 0, 0, true, true⟩

/-- A concrete all-success Draw environment. -/
def DrawEnv.allZero : DrawEnv := ⟨0, 0, 0, 0, 0, 0, 0, 0⟩

/-! ### Theorems -/

/-- Pushing a list of actions appends it to the stored registration order. -/
theorem TaskStack.pushAll_tasks (l : List Action) (s : TaskStack) :
    (TaskStack.pushAll s l).tasks = s.tasks ++ l := by
  induction l generalizing s with
  | nil => simp [TaskStack.pushAll]
  | cons a t ih =>
      show (TaskStack.pushAll (s.push a) t).tasks = s.tasks ++ (a :: t)
      rw [ih, TaskStack.push]
      simp

/-- C2: for every sequence of registered cleanup actions, one Flush invokes
exactly those actions, each exactly once, in exactly the reverse of
registration order (most recently pushed first). -/
theorem taskStack_flush_reverse_order (l : List Action) :
    ((TaskStack.empty.pushAll l).flush).1 = l.reverse ∧
    ∀ a : Action, ((TaskStack.empty.pushAll l).flush).1.count a = l.count a := by
  constructor
  · show (TaskStack.pushAll TaskStack.empty l).tasks.reverse = l.reverse
    rw [TaskStack.pushAll_tasks]
    simp [TaskStack.empty]
  · intro a
    show ((TaskStack.pushAll TaskStack.empty l).tasks.reverse).count a = l.count a
    rw [TaskStack.pushAll_tasks]
    simp [TaskStack.empty]

/-- C1: evaluation of the cited code at the failing input. After pushing the
single action 0, the first Flush leaves the registry unchanged (tasks_ is
never cleared), so a second Flush runs the action again: across the two
Flush calls action 0 runs twice, against the claim that the registry is
cleared and no action runs more than once. -/
theorem taskStack_flush_not_idempotent :
    ((TaskStack.empty.push 0).flush).2 = TaskStack.empty.push 0 ∧
    (((TaskStack.empty.push 0).flush).2.flush).1 = [0] ∧
    ((TaskStack.empty.push 0).flush).1 ++ (((TaskStack.empty.push 0).flush).2.flush).1
      = [0, 0] :=
  ⟨rfl, rfl, rfl⟩

/-- C9: moving a Texture transfers every GPU handle (device, allocator,
image, allocation, image view) to the destination and nulls all of them in
the source; destroying the moved-from Texture performs no destruction call,
and the destination destroys exactly what the original would have. -/
theorem texture_move_ownership (t : TextureHandles) :
    (Texture.moveConstruct t).1 = t ∧
    (Texture.moveConstruct t).2 =
      ⟨VK_NULL_HANDLE, VK_NULL_HANDLE, VK_NULL_HANDLE, VK_NULL_HANDLE, VK_NULL_HANDLE⟩ ∧
    Texture.destructor (Texture.moveConstruct t).2 = [] ∧
    Texture.destructor (Texture.moveConstruct t).1 = Texture.destructor t := by
  refine ⟨rfl, rfl, ?_, rfl⟩
  simp [Texture.destructor, Texture.moveConstruct, VK_NULL_HANDLE]

/-- The per-slot Shutdown loop body never runs a cleanup action. -/
theorem shutdownSlotEvents_no_runTask (slot : Nat) (status wait : VkResult) (a : Action) :
    ShutdownEvent.runTask a ∉ Renderer.shutdownSlotEvents slot status wait := by
  unfold Renderer.shutdownSlotEvents
  split <;> simp

/-- C10: if some frame slot has a nonzero fence status (not observed
signaled) and the bounded wait on that slot does not return VK_SUCCESS,
Shutdown returns before flushing the deletion stack: the registry is
unchanged, the flush flag is false, and no cleanup action appears in the
trace. -/
theorem shutdown_fence_wait_failure_skips_flush (env : ShutdownEnv) (stack : TaskStack)
    (h : (env.fenceStatus0 ≠ VK_SUCCESS ∧ env.waitResult0 ≠ VK_SUCCESS) ∨
         (env.fenceStatus1 ≠ VK_SUCCESS ∧ env.waitResult1 ≠ VK_SUCCESS)) :
    (Renderer.shutdown env stack).2.1 = stack ∧
    (Renderer.shutdown env stack).2.2 = false ∧
    ∀ a : Action, ShutdownEvent.runTask a ∉ (Renderer.shutdown env stack).1 := by
  unfold Renderer.shutdown
  by_cases h0 : env.fenceStatus0 ≠ VK_SUCCESS ∧ env.waitResult0 ≠ VK_SUCCESS
  · rw [if_pos h0]
    exact ⟨rfl, rfl, fun a => shutdownSlotEvents_no_runTask 0 _ _ a⟩
  · have h1 : env.fenceStatus1 ≠ VK_SUCCESS ∧ env.waitResult1 ≠ VK_SUCCESS := by
      rcases h with hc | hc
      · exact absurd hc h0
      · exact hc
    rw [if_neg h0, if_pos h1]
    refine ⟨rfl, rfl, fun a hmem => ?_⟩
    rcases List.mem_append.mp hmem with hm | hm
    · exact shutdownSlotEvents_no_runTask 0 _ _ a hm
    · exact shutdownSlotEvents_no_runTask 1 _ _ a hm

/-- C10 witness: slot 0 fence is VK_NOT_READY and its wait times out; a
one-action registry survives Shutdown untouched and no action runs. -/
theorem shutdown_fence_wait_failure_skips_flush_witness :
    (Renderer.shutdown ⟨VK_NOT_READY, VK_TIMEOUT, 0, 0⟩ (TaskStack.empty.push 7)).2.1
        = TaskStack.empty.push 7 ∧
    (Renderer.shutdown ⟨VK_NOT_READY, VK_TIMEOUT, 0, 0⟩ (TaskStack.empty.push 7)).2.2
        = false ∧
    ∀ a : Action, ShutdownEvent.runTask a ∉
      (Renderer.shutdown ⟨VK_NOT_READY, VK_TIMEOUT, 0, 0⟩ (TaskStack.empty.push 7)).1 :=
  shutdown_fence_wait_failure_skips_flush ⟨VK_NOT_READY, VK_TIMEOUT, 0, 0⟩
    (TaskStack.empty.push 7) (Or.inl ⟨by decide, by decide⟩)

/-- C5 counterexample: with begin, end and submit succeeding and the fence
wait returning VK_TIMEOUT, SubmitImmediate still returns normally and resets
the fence and the command pool: the timeout surfaces no error to the caller,
against the claim that a distinct error is surfaced on expiry and the resets
happen only after a successful wait. -/
theorem submitImmediate_timeout_no_error :
    (QueueSubmitter.submitImmediate ⟨0, 0, 0, VK_TIMEOUT⟩).2 = SubmitOutcome.ok ∧
    SubmitEvent.resetFences ∈ (QueueSubmitter.submitImmediate ⟨0, 0, 0, VK_TIMEOUT⟩).1 ∧
    SubmitEvent.resetCommandPool ∈ (QueueSubmitter.submitImmediate ⟨0, 0, 0, VK_TIMEOUT⟩).1 := by
  refine ⟨rfl, ?_, ?_⟩ <;> decide

/-- C5 amended: whenever begin, end and submit succeed, SubmitImmediate
blocks on a single fence wait with the finite timeout 9999999999
nanoseconds, ignores the result of that wait, and afterwards (whatever the
wait returned) resets the fence and then the upload command pool before
returning normally. -/
theorem submitImmediate_bounded_wait_ignores_result (env : SubmitEnv)
    (hb : env.beginResult = VK_SUCCESS) (he : env.endResult = VK_SUCCESS)
    (hs : env.submitResult = VK_SUCCESS) :
    QueueSubmitter.submitImmediate env =
      ([SubmitEvent.beginCommandBuffer VK_SUCCESS, SubmitEvent.recordCommands,
        SubmitEvent.endCommandBuffer VK_SUCCESS, SubmitEvent.queueSubmit VK_SUCCESS,
        SubmitEvent.waitFences kSubmitImmediateTimeoutNanos env.waitResult,
        SubmitEvent.resetFences, SubmitEvent.resetCommandPool], SubmitOutcome.ok) := by
  simp [QueueSubmitter.submitImmediate, hb, he, hs]

/-- C5 witness: the amended statement evaluated with every submission step
succeeding and the wait timing out. -/
theorem submitImmediate_bounded_wait_ignores_result_witness :
    QueueSubmitter.submitImmediate ⟨0, 0, 0, VK_TIMEOUT⟩ =
      ([SubmitEvent.beginCommandBuffer VK_SUCCESS, SubmitEvent.recordCommands,
        SubmitEvent.endCommandBuffer VK_SUCCESS, SubmitEvent.queueSubmit VK_SUCCESS,
        SubmitEvent.waitFences kSubmitImmediateTimeoutNanos VK_TIMEOUT,
        SubmitEvent.resetFences, SubmitEvent.resetCommandPool], SubmitOutcome.ok) :=
  submitImmediate_bounded_wait_ignores_result ⟨0, 0, 0, VK_TIMEOUT⟩ rfl rfl rfl

/-- C8: when the one-shot submission succeeds, the texture upload performs,
in order: staging buffer creation and fill, image creation, then inside the
submitted command buffer a barrier from undefined to transfer-destination
layout (source access 0, destination access transfer-write), the whole
extent buffer-to-image copy, a barrier from transfer-destination to
shader-read-only layout (transfer-write before shader-read); the staging
buffer is destroyed only after the blocking fence wait of the submission,
and the image view is created last of all. -/
theorem texture_upload_command_order (env : SubmitEnv) (bufferSize w h : Nat)
    (hb : env.beginResult = VK_SUCCESS) (he : env.endResult = VK_SUCCESS)
    (hs : env.submitResult = VK_SUCCESS) :
    Texture.create env bufferSize w h =
      ([TexEvent.createStagingBuffer bufferSize, TexEvent.mapMemory,
        TexEvent.memcpy bufferSize, TexEvent.unmapMemory, TexEvent.createImage w h 1,
        TexEvent.beginCommandBuffer VK_SUCCESS,
        TexEvent.pipelineBarrier VK_PIPELINE_STAGE_TOP_OF_PIPE_BIT
          VK_PIPELINE_STAGE_TRANSFER_BIT ImageLayout.undefined
          ImageLayout.transferDstOptimal 0 VK_ACCESS_TRANSFER_WRITE_BIT,
        TexEvent.copyBufferToImage w h 1,
        TexEvent.pipelineBarrier VK_PIPELINE_STAGE_TRANSFER_BIT
          VK_PIPELINE_STAGE_FRAGMENT_SHADER_BIT ImageLayout.transferDstOptimal
          ImageLayout.shaderReadOnlyOptimal VK_ACCESS_TRANSFER_WRITE_BIT
          VK_ACCESS_SHADER_READ_BIT,
        TexEvent.endCommandBuffer VK_SUCCESS, TexEvent.queueSubmit VK_SUCCESS,
        TexEvent.waitFences kSubmitImmediateTimeoutNanos env.waitResult,
        TexEvent.resetFences, TexEvent.resetCommandPool,
        TexEvent.destroyStagingBuffer, TexEvent.createImageView], SubmitOutcome.ok) := by
  simp [Texture.create, hb, he, hs]

/-- C8 witness: a 2 by 2 texture of 16 bytes uploaded with every submission
step succeeding. -/
theorem texture_upload_command_order_witness :
    Texture.create ⟨0, 0, 0, 0⟩ 16 2 2 =
      ([TexEvent.createStagingBuffer 16, TexEvent.mapMemory,
        TexEvent.memcpy 16, TexEvent.unmapMemory, TexEvent.createImage 2 2 1,
        TexEvent.beginCommandBuffer VK_SUCCESS,
        TexEvent.pipelineBarrier VK_PIPELINE_STAGE_TOP_OF_PIPE_BIT
          VK_PIPELINE_STAGE_TRANSFER_BIT ImageLayout.undefined
          ImageLayout.transferDstOptimal 0 VK_ACCESS_TRANSFER_WRITE_BIT,
        TexEvent.copyBufferToImage 2 2 1,
        TexEvent.pipelineBarrier VK_PIPELINE_STAGE_TRANSFER_BIT
          VK_PIPELINE_STAGE_FRAGMENT_SHADER_BIT ImageLayout.transferDstOptimal
          ImageLayout.shaderReadOnlyOptimal VK_ACCESS_TRANSFER_WRITE_BIT
          VK_ACCESS_SHADER_READ_BIT,
        TexEvent.endCommandBuffer VK_SUCCESS, TexEvent.queueSubmit VK_SUCCESS,
        TexEvent.waitFences kSubmitImmediateTimeoutNanos VK_SUCCESS,
        TexEvent.resetFences, TexEvent.resetCommandPool,
        TexEvent.destroyStagingBuffer, TexEvent.createImageView], SubmitOutcome.ok) :=
  texture_upload_command_order ⟨0, 0, 0, 0⟩ 16 2 2 rfl rfl rfl

/-- The frame counter advances exactly when every Draw step succeeds. -/
theorem Renderer.draw_snd (env : DrawEnv) (n : Nat) :
    (Renderer.draw env n).2 = if env.allSuccess then n + 1 else n := by
  unfold Renderer.draw DrawEnv.allSuccess
  split_ifs <;> simp_all

/-- Under an all-success environment, N Draw calls starting at frame 0
advance the counter to N. -/
theorem Renderer.drawIter_allSuccess (env : DrawEnv) (h : env.allSuccess) :
    ∀ N : Nat, Renderer.drawIter env N = N := by
  intro N
  induction N with
  | zero => rfl
  | succ k ih =>
      show (Renderer.draw env (Renderer.drawIter env k)).2 = k + 1
      rw [ih, Renderer.draw_snd, if_pos h]

/-- The first call of every Draw run is GetFrame with slot
framenumber mod 2. -/
theorem Renderer.draw_head (env : DrawEnv) (n : Nat) :
    (Renderer.draw env n).1.head? = some (DrawEvent.getFrame (n % 2)) := by
  unfold Renderer.draw
  split_ifs <;> simp [Renderer.getFrame, kFrameOverlap]

/-- Trace of a Draw run aborted by the fence wait. -/
theorem Renderer.draw_fst_wait_fail (env : DrawEnv) (n : Nat)
    (h1 : env.waitFence ≠ VK_SUCCESS) :
    (Renderer.draw env n).1 =
      [DrawEvent.getFrame (n % 2), DrawEvent.waitFences env.waitFence] := by
  simp [Renderer.draw, Renderer.getFrame, kFrameOverlap, h1]

/-- Trace of a Draw run aborted by the fence reset. -/
theorem Renderer.draw_fst_resetFence_fail (env : DrawEnv) (n : Nat)
    (h1 : env.waitFence = VK_SUCCESS) (h2 : env.resetFence ≠ VK_SUCCESS) :
    (Renderer.draw env n).1 =
      [DrawEvent.getFrame (n % 2), DrawEvent.waitFences VK_SUCCESS,
       DrawEvent.resetFences env.resetFence] := by
  simp [Renderer.draw, Renderer.getFrame, kFrameOverlap, h1, h2]

/-- Trace of a Draw run aborted by the swapchain image acquire. -/
theorem Renderer.draw_fst_acquire_fail (env : DrawEnv) (n : Nat)
    (h1 : env.waitFence = VK_SUCCESS) (h2 : env.resetFence = VK_SUCCESS)
    (h3 : env.acquire ≠ VK_SUCCESS) :
    (Renderer.draw env n).1 =
      [DrawEvent.getFrame (n % 2), DrawEvent.waitFences VK_SUCCESS,
       DrawEvent.resetFences VK_SUCCESS, DrawEvent.acquireNextImage env.acquire] := by
  simp [Renderer.draw, Renderer.getFrame, kFrameOverlap, h1, h2, h3]

/-- Once the wait, the fence reset and the acquire have succeeded, the trace
starts with those calls followed immediately by the command buffer reset. -/
theorem Renderer.draw_fst_prefix5 (env : DrawEnv) (n : Nat)
    (h1 : env.waitFence = VK_SUCCESS) (h2 : env.resetFence = VK_SUCCESS)
    (h3 : env.acquire = VK_SUCCESS) :
    ∃ rest : List DrawEvent, (Renderer.draw env n).1 =
      [DrawEvent.getFrame (n % 2), DrawEvent.waitFences VK_SUCCESS,
       DrawEvent.resetFences VK_SUCCESS, DrawEvent.acquireNextImage VK_SUCCESS,
       DrawEvent.resetCommandBuffer env.resetCmd] ++ rest := by
  simp only [Renderer.draw, Renderer.getFrame, kFrameOverlap, h1, h2, h3, ne_eq,
    not_true_eq_false, if_false, ite_false]
  split_ifs <;> exact ⟨_, rfl⟩

/-- C3: every Draw call uses slot framenumber mod 2 (its first call is
GetFrame with that slot); whenever the command buffer reset appears in the
trace, the wait on the render fence of the slot returned VK_SUCCESS and it
appears strictly earlier in the trace (the first five calls are GetFrame,
the successful fence wait, the fence reset, the image acquire, and only then
the command buffer reset); and with the counter incremented once per fully
successful frame the active slot sequence is 0, 1, 0, 1, ... -/
theorem draw_slot_cycle_and_reset_after_wait (env : DrawEnv) (n : Nat) :
    (Renderer.draw env n).1.head? = some (DrawEvent.getFrame (n % 2)) ∧
    (∀ r : VkResult, DrawEvent.resetCommandBuffer r ∈ (Renderer.draw env n).1 →
      env.waitFence = VK_SUCCESS ∧
      (Renderer.draw env n).1.take 5 =
        [DrawEvent.getFrame (n % 2), DrawEvent.waitFences VK_SUCCESS,
         DrawEvent.resetFences VK_SUCCESS, DrawEvent.acquireNextImage VK_SUCCESS,
         DrawEvent.resetCommandBuffer env.resetCmd]) ∧
    (∀ N : Nat, env.allSuccess →
      (Renderer.draw env (Renderer.drawIter env N)).1.head? =
        some (DrawEvent.getFrame (N % 2))) := by
  refine ⟨Renderer.draw_head env n, ?_, ?_⟩
  · intro r hmem
    by_cases h1 : env.waitFence = VK_SUCCESS
    · by_cases h2 : env.resetFence = VK_SUCCESS
      · by_cases h3 : env.acquire = VK_SUCCESS
        · obtain ⟨rest, hrest⟩ := Renderer.draw_fst_prefix5 env n h1 h2 h3
          refine ⟨h1, ?_⟩
          rw [hrest]
          simp
        · rw [Renderer.draw_fst_acquire_fail env n h1 h2 h3] at hmem
          simp at hmem
      · rw [Renderer.draw_fst_resetFence_fail env n h1 h2] at hmem
        simp at hmem
    · rw [Renderer.draw_fst_wait_fail env n h1] at hmem
      simp at hmem
  · intro N h
    rw [Renderer.drawIter_allSuccess env h N]
    exact Renderer.draw_head env N

/-- C3 witness: with every step succeeding at frame 2 the slot is 0, the
reset is in the trace, and the first five calls show the successful fence
wait strictly before the command buffer reset. -/
theorem draw_slot_cycle_and_reset_after_wait_witness :
    DrawEvent.resetCommandBuffer 0 ∈ (Renderer.draw DrawEnv.allZero 2).1 ∧
    (Renderer.draw DrawEnv.allZero 2).1.take 5 =
      [DrawEvent.getFrame 0, DrawEvent.waitFences VK_SUCCESS,
       DrawEvent.resetFences VK_SUCCESS, DrawEvent.acquireNextImage VK_SUCCESS,
       DrawEvent.resetCommandBuffer 0] :=
  ⟨by decide,
   ((draw_slot_cycle_and_reset_after_wait DrawEnv.allZero 2).2.1 0 (by decide)).2⟩

/-- C4: the frame counter is incremented exactly when all eight fallible
steps succeed; on any failure the counter is unchanged and Draw returns
after the failing call without performing the remaining steps (the trace
stops at the first failing step); N fully successful Draw calls starting
from frame 0 advance the counter to N. -/
theorem draw_failure_drops_frame (env : DrawEnv) (n : Nat) :
    ((Renderer.draw env n).2 = n + 1 ↔ env.allSuccess) ∧
    (¬ env.allSuccess → (Renderer.draw env n).2 = n) ∧
    (env.waitFence ≠ VK_SUCCESS →
      (Renderer.draw env n).1 =
        [DrawEvent.getFrame (n % 2), DrawEvent.waitFences env.waitFence]) ∧
    (env.waitFence = VK_SUCCESS → env.resetFence ≠ VK_SUCCESS →
      (Renderer.draw env n).1 =
        [DrawEvent.getFrame (n % 2), DrawEvent.waitFences VK_SUCCESS,
         DrawEvent.resetFences env.resetFence]) ∧
    (env.waitFence = VK_SUCCESS → env.resetFence = VK_SUCCESS →
      env.acquire ≠ VK_SUCCESS →
      (Renderer.draw env n).1 =
        [DrawEvent.getFrame (n % 2), DrawEvent.waitFences VK_SUCCESS,
         DrawEvent.resetFences VK_SUCCESS, DrawEvent.acquireNextImage env.acquire]) ∧
    (env.waitFence = VK_SUCCESS → env.resetFence = VK_SUCCESS →
      env.acquire = VK_SUCCESS → env.resetCmd ≠ VK_SUCCESS →
      (Renderer.draw env n).1 =
        [DrawEvent.getFrame (n % 2), DrawEvent.waitFences VK_SUCCESS,
         DrawEvent.resetFences VK_SUCCESS, DrawEvent.acquireNextImage VK_SUCCESS,
         DrawEvent.resetCommandBuffer env.resetCmd]) ∧
    (env.waitFence = VK_SUCCESS → env.resetFence = VK_SUCCESS →
      env.acquire = VK_SUCCESS → env.resetCmd = VK_SUCCESS →
      env.beginCmd ≠ VK_SUCCESS →
      (Renderer.draw env n).1 =
        [DrawEvent.getFrame (n % 2), DrawEvent.waitFences VK_SUCCESS,
         DrawEvent.resetFences VK_SUCCESS, DrawEvent.acquireNextImage VK_SUCCESS,
         DrawEvent.resetCommandBuffer VK_SUCCESS,
         DrawEvent.beginCommandBuffer env.beginCmd]) ∧
    (env.waitFence = VK_SUCCESS → env.resetFence = VK_SUCCESS →
      env.acquire = VK_SUCCESS → env.resetCmd = VK_SUCCESS →
      env.beginCmd = VK_SUCCESS → env.endCmd ≠ VK_SUCCESS →
      (Renderer.draw env n).1 =
        [DrawEvent.getFrame (n % 2), DrawEvent.waitFences VK_SUCCESS,
         DrawEvent.resetFences VK_SUCCESS, DrawEvent.acquireNextImage VK_SUCCESS,
         DrawEvent.resetCommandBuffer VK_SUCCESS,
         DrawEvent.beginCommandBuffer VK_SUCCESS, DrawEvent.beginRenderPass,
         DrawEvent.drawObjects, DrawEvent.endRenderPass,
         DrawEvent.endCommandBuffer env.endCmd]) ∧
    (env.waitFence = VK_SUCCESS → env.resetFence = VK_SUCCESS →
      env.acquire = VK_SUCCESS → env.resetCmd = VK_SUCCESS →
      env.beginCmd = VK_SUCCESS → env.endCmd = VK_SUCCESS →
      env.submit ≠ VK_SUCCESS →
      (Renderer.draw env n).1 =
        [DrawEvent.getFrame (n % 2), DrawEvent.waitFences VK_SUCCESS,
         DrawEvent.resetFences VK_SUCCESS, DrawEvent.acquireNextImage VK_SUCCESS,
         DrawEvent.resetCommandBuffer VK_SUCCESS,
         DrawEvent.beginCommandBuffer VK_SUCCESS, DrawEvent.beginRenderPass,
         DrawEvent.drawObjects, DrawEvent.endRenderPass,
         DrawEvent.endCommandBuffer VK_SUCCESS, DrawEvent.queueSubmit env.submit]) ∧
    (env.waitFence = VK_SUCCESS → env.resetFence = VK_SUCCESS →
      env.acquire = VK_SUCCESS → env.resetCmd = VK_SUCCESS →
      env.beginCmd = VK_SUCCESS → env.endCmd = VK_SUCCESS →
      env.submit = VK_SUCCESS → env.present ≠ VK_SUCCESS →
      (Renderer.draw env n).1 =
        [DrawEvent.getFrame (n % 2), DrawEvent.waitFences VK_SUCCESS,
         DrawEvent.resetFences VK_SUCCESS, DrawEvent.acquireNextImage VK_SUCCESS,
         DrawEvent.resetCommandBuffer VK_SUCCESS,
         DrawEvent.beginCommandBuffer VK_SUCCESS, DrawEvent.beginRenderPass,
         DrawEvent.drawObjects, DrawEvent.endRenderPass,
         DrawEvent.endCommandBuffer VK_SUCCESS, DrawEvent.queueSubmit VK_SUCCESS,
         DrawEvent.queuePresent env.present]) ∧
    (∀ N : Nat, env.allSuccess → Renderer.drawIter env N = N) := by
  refine ⟨?_, ?_, ?_, ?_, ?_, ?_, ?_, ?_, ?_, ?_, ?_⟩
  · rw [Renderer.draw_snd]
    split_ifs with h
    · simp [h]
    · simp [h]
  · intro h
    rw [Renderer.draw_snd, if_neg h]
  · intro h1
    exact Renderer.draw_fst_wait_fail env n h1
  · intro h1 h2
    simp [Renderer.draw, Renderer.getFrame, kFrameOverlap, h1, h2]
  · intro h1 h2 h3
    simp [Renderer.draw, Renderer.getFrame, kFrameOverlap, h1, h2, h3]
  · intro h1 h2 h3 h4
    simp [Renderer.draw, Renderer.getFrame, kFrameOverlap, h1, h2, h3, h4]
  · intro h1 h2 h3 h4 h5
    simp [Renderer.draw, Renderer.getFrame, kFrameOverlap, h1, h2, h3, h4, h5]
  · intro h1 h2 h3 h4 h5 h6
    simp [Renderer.draw, Renderer.getFrame, kFrameOverlap, h1, h2, h3, h4, h5, h6]
  · intro h1 h2 h3 h4 h5 h6 h7
    simp [Renderer.draw, Renderer.getFrame, kFrameOverlap, h1, h2, h3, h4, h5, h6, h7]
  · intro h1 h2 h3 h4 h5 h6 h7 h8
    simp [Renderer.draw, Renderer.getFrame, kFrameOverlap, h1, h2, h3, h4, h5, h6, h7, h8]
  · intro N h
    exact Renderer.drawIter_allSuccess env h N

/-- C4 witness: 120 fully successful Draw calls advance the counter to 120,
and one successful Draw at frame 119 advances it to 120. -/
theorem draw_failure_drops_frame_witness :
    (Renderer.draw DrawEnv.allZero 119).2 = 120 ∧
    Renderer.drawIter DrawEnv.allZero 120 = 120 :=
  ⟨((draw_failure_drops_frame DrawEnv.allZero 119).1).mpr (by decide),
   (draw_failure_drops_frame DrawEnv.allZero 0).2.2.2.2.2.2.2.2.2.2 120 (by decide)⟩

/-- A guarded failure return can only yield none or some false when its
continuation does. -/
theorem initStep_cases (c : Prop) [Decidable c] (t : Option Bool)
    (h : t = none ∨ t = some false) :
    (if c then some false else t) = none ∨ (if c then some false else t) = some false := by
  split
  · exact Or.inr rfl
  · exact h

/-- If a guarded failure return yields none, the guard did not fire and the
continuation yields none. -/
theorem initStep_none (c : Prop) [Decidable c] (t : Option Bool)
    (h : (if c then some false else t) = none) : ¬ c ∧ t = none := by
  by_cases hc : c
  · rw [if_pos hc] at h
    exact absurd h (by simp)
  · rw [if_neg hc] at h
    exact ⟨hc, h⟩

/-- Init either falls off the end of the function (none) or returns false;
it never returns true. -/
theorem Renderer.init_none_or_false (env : InitEnv) :
    Renderer.init env = none ∨ Renderer.init env = some false := by
  unfold Renderer.init
  repeat apply initStep_cases
  exact Or.inl rfl

/-- If Init reaches the end of the function, every guard passed. -/
theorem Renderer.init_eq_none_imp (env : InitEnv) (h : Renderer.init env = none) :
    env.allOk := by
  unfold Renderer.init at h
  obtain ⟨n1, h⟩ := initStep_none _ _ h
  obtain ⟨n2, h⟩ := initStep_none _ _ h
  obtain ⟨n3, h⟩ := initStep_none _ _ h
  obtain ⟨n4, h⟩ := initStep_none _ _ h
  obtain ⟨n5, h⟩ := initStep_none _ _ h
  obtain ⟨n6, h⟩ := initStep_none _ _ h
  obtain ⟨n7, h⟩ := initStep_none _ _ h
  obtain ⟨n8, h⟩ := initStep_none _ _ h
  obtain ⟨n9, h⟩ := initStep_none _ _ h
  obtain ⟨n10, h⟩ := initStep_none _ _ h
  obtain ⟨n11, h⟩ := initStep_none _ _ h
  obtain ⟨n12, h⟩ := initStep_none _ _ h
  obtain ⟨n13, h⟩ := initStep_none _ _ h
  obtain ⟨n14, h⟩ := initStep_none _ _ h
  obtain ⟨n15, h⟩ := initStep_none _ _ h
  obtain ⟨n16, h⟩ := initStep_none _ _ h
  obtain ⟨n17, h⟩ := initStep_none _ _ h
  obtain ⟨n18, h⟩ := initStep_none _ _ h
  obtain ⟨n19, h⟩ := initStep_none _ _ h
  obtain ⟨n20, h⟩ := initStep_none _ _ h
  obtain ⟨n21, h⟩ := initStep_none _ _ h
  obtain ⟨n22, h⟩ := initStep_none _ _ h
  obtain ⟨n23, h⟩ := initStep_none _ _ h
  obtain ⟨n24, h⟩ := initStep_none _ _ h
  obtain ⟨n25, h⟩ := initStep_none _ _ h
  obtain ⟨n26, h⟩ := initStep_none _ _ h
  exact ⟨by simpa using n1, by simpa using n2, by simpa using n3, n4,
    by simpa using n5, by simpa using n6, by simpa using n7, by simpa using n8,
    by simpa using n9, by simpa using n10, by simpa using n11, by simpa using n12,
    by simpa using n13, by simpa using n14, by simpa using n15, by simpa using n16,
    by simpa using n17, by simpa using n18, by simpa using n19, by simpa using n20,
    by simpa using n21, by simpa using n22, by simpa using n23, by simpa using n24,
    by simpa using n25, by simpa using n26⟩

/-- C6: evaluation of the Init control flow. Every failing step makes Init
return false (some false), but on the all-success path the function never
returns a value at all (none): the success path assigns initialized_ and
reaches the end of the bool function without a return statement, so Init
never returns true for any environment. -/
theorem renderer_init_never_true (env : InitEnv) :
    Renderer.init env ≠ some true ∧
    (env.allOk → Renderer.init env = none) ∧
    (¬ env.allOk → Renderer.init env = some false) := by
  refine ⟨?_, ?_, ?_⟩
  · rcases Renderer.init_none_or_false env with h | h <;> simp [h]
  · intro hok
    obtain ⟨o1, o2, o3, o4, o5, o6, o7, o8, o9, o10, o11, o12, o13, o14, o15, o16,
      o17, o18, o19, o20, o21, o22, o23, o24, o25, o26⟩ := hok
    unfold Renderer.init
    rw [if_neg (by simp [o1]), if_neg (fun hne => hne o2), if_neg (fun hne => hne o3),
      if_neg o4, if_neg (by simp [o5]), if_neg (fun hne => hne o6),
      if_neg (fun hne => hne o7), if_neg (fun hne => hne o8), if_neg (by simpa using o9),
      if_neg (fun hne => hne o10), if_neg (fun hne => hne o11),
      if_neg (fun hne => hne o12), if_neg (fun hne => hne o13),
      if_neg (fun hne => hne o14), if_neg (fun hne => hne o15),
      if_neg (fun hne => hne o16), if_neg (by simpa using o17),
      if_neg (fun hne => hne o18), if_neg (fun hne => hne o19),
      if_neg (fun hne => hne o20), if_neg (fun hne => hne o21),
      if_neg (fun hne => hne o22), if_neg (fun hne => hne o23),
      if_neg (fun hne => hne o24), if_neg (by simp [o25]), if_neg (by simp [o26])]
  · intro hna
    rcases Renderer.init_none_or_false env with h | h
    · exact absurd (Renderer.init_eq_none_imp env h) hna
    · exact h

/-- C6 witness: with every initialization step succeeding, Init returns no
value at all instead of true. -/
theorem renderer_init_never_true_witness :
    Renderer.init InitEnv.allZero = none :=
  (renderer_init_never_true InitEnv.allZero).2.1 (by decide)

/-- Bitwise conjunction with the high mask clears exactly the low k bits:
for x below 2 to the 64, x AND (complement of (2 to the k minus 1)) equals
x minus its remainder modulo 2 to the k. -/
theorem land_high_mask (k x : Nat) (hk : k ≤ 64) (hx : x < 2 ^ 64) :
    x &&& ((2 ^ 64 - 1) - (2 ^ k - 1)) = x - x % 2 ^ k := by
  have hmul : (2 : Nat) ^ k * 2 ^ (64 - k) = 2 ^ 64 := by
    rw [← pow_add]
    congr 1
    omega
  obtain ⟨c, hc⟩ : ∃ c, (2 : Nat) ^ (64 - k) = c + 1 :=
    ⟨2 ^ (64 - k) - 1, by have := Nat.two_pow_pos (64 - k); omega⟩
  have hmask : (2 ^ 64 - 1) - (2 ^ k - 1) = 2 ^ k * (2 ^ (64 - k) - 1) := by
    rw [hc, Nat.mul_succ] at hmul
    rw [hc]
    simp only [Nat.add_sub_cancel]
    have hp1 := Nat.two_pow_pos k
    have hp2 := Nat.two_pow_pos 64
    omega
  have hr : x - x % 2 ^ k = 2 ^ k * (x / 2 ^ k) := by
    have := Nat.div_add_mod x (2 ^ k)
    omega
  rw [hmask, hr]
  apply Nat.eq_of_testBit_eq
  intro i
  rw [Nat.testBit_and, Nat.testBit_mul_pow_two, Nat.testBit_mul_pow_two,
    Nat.testBit_two_pow_sub_one]
  have hdivbit : Nat.testBit (x / 2 ^ k) (i - k) = Nat.testBit x (k + (i - k)) := by
    rw [← Nat.shiftRight_eq_div_pow, Nat.testBit_shiftRight]
  rw [hdivbit]
  by_cases hik : k ≤ i
  · have hki : k + (i - k) = i := by omega
    rw [hki]
    by_cases hi64 : i < 64
    · have h1 : i - k < 64 - k := by omega
      simp [hik, h1]
    · have hxi : Nat.testBit x i = false :=
        Nat.testBit_lt_two_pow
          (lt_of_lt_of_le hx (Nat.pow_le_pow_right (by norm_num) (by omega)))
      simp [hxi]
  · simp [hik]

/-- C7 counterexample: size_t overflow. At alignment 256 the requested size
2 to the 64 minus 1 is rounded to 0, which is a multiple of 256 but far
below the requested size, so the claim that the result is at least the
requested size for every size fails. -/
theorem getAlignedBufferSize_overflow_counterexample :
    GetAlignedBufferSize 256 (2 ^ 64 - 1) = 0 ∧
    ¬ (2 ^ 64 - 1 ≤ GetAlignedBufferSize 256 (2 ^ 64 - 1)) := by
  refine ⟨by decide, by decide⟩

/-- C7 amended: for an alignment that is a power of two (2 to the k with
k < 64), the result is always a multiple of the alignment; and for every
size for which size + alignment - 1 does not overflow a 64-bit size_t, the
result is the least multiple of the alignment that is at least the size.
The concrete cases of the claim hold: 200 rounds to 256, 256 stays 256 and
0 stays 0. -/
theorem getAlignedBufferSize_spec (k : Nat) (hk : k < 64) :
    (∀ size : Nat, size < 2 ^ 64 →
      GetAlignedBufferSize (2 ^ k) size % 2 ^ k = 0) ∧
    (∀ size : Nat, size + 2 ^ k - 1 < 2 ^ 64 →
      size ≤ GetAlignedBufferSize (2 ^ k) size ∧
      GetAlignedBufferSize (2 ^ k) size % 2 ^ k = 0 ∧
      ∀ m : Nat, size ≤ m → m % 2 ^ k = 0 → GetAlignedBufferSize (2 ^ k) size ≤ m) ∧
    GetAlignedBufferSize 256 200 = 256 ∧
    GetAlignedBufferSize 256 256 = 256 ∧
    GetAlignedBufferSize 256 0 = 0 := by
  have h2k : 0 < (2 : Nat) ^ k := Nat.two_pow_pos k
  have hunf : ∀ size : Nat, GetAlignedBufferSize (2 ^ k) size =
      ((size + 2 ^ k - 1) % 2 ^ 64) &&& ((2 ^ 64 - 1) - (2 ^ k - 1)) := by
    intro size
    simp [GetAlignedBufferSize, h2k]
  refine ⟨?_, ?_, by decide, by decide, by decide⟩
  · intro size hs
    rw [hunf]
    have hx : (size + 2 ^ k - 1) % 2 ^ 64 < 2 ^ 64 :=
      Nat.mod_lt _ (Nat.two_pow_pos 64)
    rw [land_high_mask k _ hk.le hx]
    have hdm := Nat.div_add_mod ((size + 2 ^ k - 1) % 2 ^ 64) (2 ^ k)
    have heq : (size + 2 ^ k - 1) % 2 ^ 64 - (size + 2 ^ k - 1) % 2 ^ 64 % 2 ^ k
        = 2 ^ k * ((size + 2 ^ k - 1) % 2 ^ 64 / 2 ^ k) := by
      omega
    rw [heq]
    exact Nat.mul_mod_right _ _
  · intro size hs
    rw [hunf]
    have hmod : (size + 2 ^ k - 1) % 2 ^ 64 = size + 2 ^ k - 1 :=
      Nat.mod_eq_of_lt hs
    rw [hmod, land_high_mask k _ hk.le hs]
    have hdm := Nat.div_add_mod (size + 2 ^ k - 1) (2 ^ k)
    have hxm : (size + 2 ^ k - 1) % 2 ^ k < 2 ^ k :=
      Nat.mod_lt _ h2k
    refine ⟨by omega, ?_, ?_⟩
    · have heq : size + 2 ^ k - 1 - (size + 2 ^ k - 1) % 2 ^ k
          = 2 ^ k * ((size + 2 ^ k - 1) / 2 ^ k) := by
        omega
      rw [heq]
      exact Nat.mul_mod_right _ _
    · intro m hm1 hm2
      obtain ⟨q, hq⟩ : ∃ q, m = 2 ^ k * q := by
        obtain ⟨q, hq⟩ := Nat.dvd_of_mod_eq_zero hm2
        exact ⟨q, hq⟩
      have hlt : size + 2 ^ k - 1 < (q + 1) * 2 ^ k := by
        have : (q + 1) * 2 ^ k = 2 ^ k * q + 2 ^ k := by ring
        omega
      have hdivle : (size + 2 ^ k - 1) / 2 ^ k ≤ q :=
        Nat.lt_succ_iff.mp ((Nat.div_lt_iff_lt_mul h2k).mpr hlt)
      have heq : size + 2 ^ k - 1 - (size + 2 ^ k - 1) % 2 ^ k
          = 2 ^ k * ((size + 2 ^ k - 1) / 2 ^ k) := by
        omega
      rw [heq, hq]
      exact Nat.mul_le_mul_left _ hdivle

/-- C7 witness: at alignment 256 (k = 8) and size 200 the hypotheses hold
and the rounded size is at least the requested size. -/
theorem getAlignedBufferSize_spec_witness :
    200 ≤ GetAlignedBufferSize (2 ^ 8) 200 :=
  ((getAlignedBufferSize_spec 8 (by decide)).2.1 200 (by decide)).1

end VkRenderer
